import Mathlib

/-!
Verification of the mcp-chain middleware library against its specification.

The development shallowly embeds the dict-based chain core
(`src/mcp_chain/builder.py`, `middleware.py`), the CLI command adapter
(`cli_mcp.py`), the protocol-engine bridge registration logic (`fastmcp.py`)
and the deprecated JSON-facing front adapter (`front.py`).

Python `Dict[str, Any]` values are embedded as the inductive type `DVal`
(JSON-like values: the shapes actually flowing through this library are
null, bools, ints, strings, lists and string-keyed dicts; a dict is an
association list in insertion order with unique keys, matching Python
dict semantics).  Fallible Python code (raising `ValueError` etc.) is
embedded as `Except PyError`.  External effects (the `subprocess` module,
`--help` output, `json.loads`) are passed in as explicit oracle
parameters, so every definition stays executable.
-/

/-- Embedding of the Python dict/JSON-ish values flowing through the chain. -/
inductive DVal where
  | null
  | bool (b : Bool)
  | num (n : Int)
  | str (s : String)
  | list (xs : List DVal)
  | dict (kvs : List (String × DVal))

mutual
/-- Structural equality on embedded values (Python `==` on these shapes). -/
def DVal.beq : DVal → DVal → Bool
  | .null, .null => true
  | .bool a, .bool b => a == b
  | .num a, .num b => a == b
  | .str a, .str b => a == b
  | .list xs, .list ys => DVal.beqList xs ys
  | .dict xs, .dict ys => DVal.beqDict xs ys
  | _, _ => false

/-- Elementwise equality of embedded value lists. -/
def DVal.beqList : List DVal → List DVal → Bool
  | [], [] => true
  | x :: xs, y :: ys => DVal.beq x y && DVal.beqList xs ys
  | _, _ => false

/-- Entrywise equality of embedded dict entry lists. -/
def DVal.beqDict : List (String × DVal) → List (String × DVal) → Bool
  | [], [] => true
  | (k, v) :: xs, (k', v') :: ys => k == k' && DVal.beq v v' && DVal.beqDict xs ys
  | _, _ => false
end

/-- `DVal.beq` agrees with propositional equality (stated with a fuel bound
on the size of the left argument so the three mutual functions can be
handled in a single induction). -/
theorem DVal.beq_iff_eq_sized :
    ∀ n : Nat,
      (∀ a b : DVal, sizeOf a ≤ n → (DVal.beq a b = true ↔ a = b)) ∧
      (∀ xs ys : List DVal, sizeOf xs ≤ n → (DVal.beqList xs ys = true ↔ xs = ys)) ∧
      (∀ xs ys : List (String × DVal), sizeOf xs ≤ n →
        (DVal.beqDict xs ys = true ↔ xs = ys)) := by
  intro n
  induction n with
  | zero =>
    refine ⟨fun a b h => ?_, fun xs ys h => ?_, fun xs ys h => ?_⟩
    · exact absurd h (by cases a <;> simp_arith)
    · exact absurd h (by cases xs <;> simp_arith)
    · exact absurd h (by cases xs <;> simp_arith)
  | succ n ih =>
    obtain ⟨ihv, ihl, ihd⟩ := ih
    refine ⟨fun a b => ?_, fun xs ys => ?_, fun xs ys => ?_⟩
    · cases a <;> cases b <;> intro h <;> simp [DVal.beq]
      all_goals first
        | exact ihl _ _ (by simp_arith at h; omega)
        | exact ihd _ _ (by simp_arith at h; omega)
    · cases xs with
      | nil => cases ys <;> intro h <;> simp [DVal.beqList]
      | cons x xs =>
        cases ys with
        | nil => intro h; simp [DVal.beqList]
        | cons y ys =>
          intro h
          simp only [DVal.beqList, Bool.and_eq_true, List.cons.injEq]
          simp only [List.cons.sizeOf_spec] at h
          rw [ihv x y (by omega), ihl xs ys (by omega)]
    · cases xs with
      | nil => cases ys <;> intro h <;> simp [DVal.beqDict]
      | cons x xs =>
        obtain ⟨k, v⟩ := x
        cases ys with
        | nil => intro h; simp [DVal.beqDict]
        | cons y ys =>
          obtain ⟨k', v'⟩ := y
          intro h
          simp only [DVal.beqDict, Bool.and_eq_true, List.cons.injEq, Prod.mk.injEq,
            beq_iff_eq]
          simp only [List.cons.sizeOf_spec, Prod.mk.sizeOf_spec] at h
          rw [ihv v v' (by omega), ihd xs ys (by omega)]

instance : DecidableEq DVal := fun a b =>
  decidable_of_iff (DVal.beq a b = true)
    ((DVal.beq_iff_eq_sized (sizeOf a)).1 a b (Nat.le_refl _))

/-- Python whitespace for `str.strip` / `str.split` / `\s`
(space, tab, newline, carriage return, vertical tab, form feed). -/
def pyIsSpace (c : Char) : Bool :=
  c = ' ' || c = '\t' || c = '\n' || c = '\r' || c = '\x0b' || c = '\x0c'

/-- Python `str.strip()` with no arguments: drop leading and trailing whitespace. -/
def pyStrip (s : String) : String :=
  String.mk (((s.toList.dropWhile pyIsSpace).reverse.dropWhile pyIsSpace).reverse)

/-- Auxiliary for `pySplitWS`: split a character list on whitespace runs. -/
def pySplitWSAux : List Char → List Char → List String
  | [], acc => if acc.isEmpty then [] else [String.mk acc.reverse]
  | c :: cs, acc =>
    if pyIsSpace c then
      if acc.isEmpty then pySplitWSAux cs []
      else String.mk acc.reverse :: pySplitWSAux cs []
    else pySplitWSAux cs (c :: acc)

/-- Python `str.split()` with no arguments: split on whitespace runs,
discarding empty fields. -/
def pySplitWS (s : String) : List String := pySplitWSAux s.toList []

mutual
/-- Python `str(value)` on an embedded value.  Strings print bare, other
values print as their `repr`.  (Container `repr` is simplified: strings
inside containers are single-quoted without escape-sequence handling,
which is exact for the quote-free strings this library manipulates.) -/
def pyStr : DVal → String
  | .str s => s
  | v => pyRepr v

/-- Python `repr(value)` on an embedded value (simplified string quoting). -/
def pyRepr : DVal → String
  | .null => "None"
  | .bool b => if b then "True" else "False"
  | .num n => toString n
  | .str s => "'" ++ s ++ "'"
  | .list xs => "[" ++ pyReprList xs ++ "]"
  | .dict kvs => "\x7b" ++ pyReprDict kvs ++ "\x7d"

/-- Comma-separated `repr`s of list elements. -/
def pyReprList : List DVal → String
  | [] => ""
  | [x] => pyRepr x
  | x :: y :: xs => pyRepr x ++ ", " ++ pyReprList (y :: xs)

/-- Comma-separated `'key': repr(value)` pairs of dict entries. -/
def pyReprDict : List (String × DVal) → String
  | [] => ""
  | [(k, v)] => "'" ++ k ++ "': " ++ pyRepr v
  | (k, v) :: e :: kvs => "'" ++ k ++ "': " ++ pyRepr v ++ ", " ++ pyReprDict (e :: kvs)
end

/-- Python truthiness (`bool(value)`) on an embedded value. -/
def DVal.truthy : DVal → Bool
  | .null => false
  | .bool b => b
  | .num n => n != 0
  | .str s => s != ""
  | .list xs => !xs.isEmpty
  | .dict kvs => !kvs.isEmpty

/-- `d.get(key)` on an embedded dict: `none` when `d` is not a dict or
lacks the key (Python would return `None`; absence and non-dict receivers
are distinguished by the caller where it matters). -/
def dictGet (v : DVal) (k : String) : Option DVal :=
  match v with
  | .dict kvs => kvs.lookup k
  | _ => none

/-- `key in d` on an embedded dict. -/
def hasKey (v : DVal) (k : String) : Bool := (dictGet v k).isSome

/-- Python dict assignment `d[key] = value`: replace the value at an
existing key in place, otherwise append the new entry. -/
def dictSet : List (String × DVal) → String → DVal → List (String × DVal)
  | [], k, v => [(k, v)]
  | (k', v') :: kvs, k, v =>
    if k' = k then (k', v) :: kvs else (k', v') :: dictSet kvs k v

/-! ## Chain core: `MCPChainBuilder` and `MiddlewareMCPServer`
(`src/mcp_chain/builder.py`, `src/mcp_chain/middleware.py`,
`mcp_chain()` from `src/mcp_chain/__init__.py`). -/

/-- Embedding of the Python exceptions raised by the chain core. -/
inductive PyError where
  | valueError (msg : String)
  | attributeError (msg : String)
deriving DecidableEq, Repr

/-- The two-method capability every chain node exposes to the transformer
that wraps it: the result of `get_metadata()` and the `handle_request`
function.  A transformer receives the downstream node object and may call
either method on it (`src/mcp_chain/types.py`).  Both results are
`Except PyError` values, so a transformer observing an erroring downstream
simply ignores the error component when it never calls downstream. -/
structure DownstreamAPI where
  get_metadata : Except PyError DVal
  handle_request : DVal → Except PyError DVal

/-- A transformer `(next_server, data_dict) -> data_dict`
(both metadata transformers and request transformers have this one shape
in the source; which role a function plays is decided by where it is
installed). -/
def Transformer := DownstreamAPI → DVal → Except PyError DVal

/-- A chain node: the sentinel `MCPChainBuilder`, a `MiddlewareMCPServer`
wrapping a downstream node with a metadata transformer and a request
transformer, or a terminal server object (any object exposing
`get_metadata`/`handle_request` but no `then`, e.g. `CLIMCPServer` or
`ExternalMCPServer`), abstracted by its metadata and request handler. -/
inductive Node where
  | builder
  | middleware (downstream : Node) (metadata_transformer request_transformer : Transformer)
  | terminal (meta : DVal) (handler : DVal → Except PyError DVal)

/-- `ValueError("No downstream server configured")` raised by the builder
sentinel (`builder.py` lines 10 and 13). -/
def noDownstreamError : PyError := .valueError "No downstream server configured"

/-- The behaviour of a chain node: `MCPChainBuilder.get_metadata`/`handle_request`
raise unconditionally; `MiddlewareMCPServer.get_metadata` calls
`metadata_transformer(downstream, {})` and `handle_request` calls
`request_transformer(downstream, request)`; a terminal node answers
from its own data. -/
def Node.eval : Node → DownstreamAPI
  | .builder => ⟨.error noDownstreamError, fun _ => .error noDownstreamError⟩
  | .middleware d mt rt =>
    let a := d.eval
    ⟨mt a (.dict []), fun request => rt a request⟩
  | .terminal meta handler => ⟨.ok meta, handler⟩

/-- `node.get_metadata()`. -/
def Node.get_metadata (n : Node) : Except PyError DVal := n.eval.get_metadata

/-- `node.handle_request(request)`. -/
def Node.handle_request (n : Node) (request : DVal) : Except PyError DVal :=
  n.eval.handle_request request

/-- The default identity metadata transformer
`lambda next_server, metadata_dict: next_server.get_metadata()`
(`middleware.py` line 15). -/
def defaultMetadataTransformer : Transformer := fun next_server _ => next_server.get_metadata

/-- The default identity request transformer
`lambda next_server, request_dict: next_server.handle_request(request_dict)`
(`middleware.py` line 16). -/
def defaultRequestTransformer : Transformer := fun next_server request_dict =>
  next_server.handle_request request_dict

/-- The possible `*args` shapes of a `then(...)` call, resolved the way
`MCPChainBuilder.then` inspects them: one argument that is a server object
(has callable `get_metadata` and `handle_request` — every `Node` does,
whether or not it also has `then`), one argument that is a bare function,
two arguments `(metadata_transformer, request_transformer)`, or any other
argument count. -/
inductive ThenArgs where
  | single_server (srv : Node)
  | single_transformer (f : Transformer)
  | pair (metadata_transformer request_transformer : Transformer)
  | unsupported

/-- `MCPChainBuilder.then(*args)` (`builder.py` lines 16-45): a single
server argument is returned directly (it replaces the builder in the
chain); a single bare function becomes the request transformer of a new
middleware node over the builder, with the default metadata transformer;
two arguments become `(metadata_transformer, request_transformer)` of a
new middleware node; anything else raises. -/
def builderThen : ThenArgs → Except PyError Node
  | .single_server srv => .ok srv
  | .single_transformer f => .ok (.middleware .builder defaultMetadataTransformer f)
  | .pair mt rt => .ok (.middleware .builder mt rt)
  | .unsupported => .error (.valueError "Unsupported arguments to then()")

/-- `hasattr(node, 'then')`: the builder and middleware nodes expose
`then`; terminal server objects do not. -/
def Node.hasThen : Node → Bool
  | .terminal _ _ => false
  | _ => true

/-- `node.then(*args)`.  On the builder this is `MCPChainBuilder.then`.
On a `MiddlewareMCPServer` (`middleware.py` lines 35-55) it checks
`hasattr(self._downstream, 'then')`; if so it delegates
`child_result = self._downstream.then(*args)` and returns a new
`MiddlewareMCPServer` wrapping `child_result` with this node's own
transformers, otherwise it raises.  Calling `then` on a terminal server
object is an `AttributeError` (the object has no such method). -/
def nodeThen : Node → ThenArgs → Except PyError Node
  | .builder, args => builderThen args
  | .middleware d mt rt, args =>
    if d.hasThen then
      (nodeThen d args).map fun child_result => .middleware child_result mt rt
    else
      .error (.valueError "Cannot chain on downstream server: it has no `then` method")
  | .terminal _ _, _ =>
    .error (.attributeError "object has no attribute then")

/-- `mcp_chain()` (`__init__.py`): a fresh `MCPChainBuilder`. -/
def mcp_chain : Node := .builder

instance {ε α : Type} [DecidableEq ε] [DecidableEq α] : DecidableEq (Except ε α) := fun a b =>
  match a, b with
  | .ok a, .ok b => decidable_of_iff (a = b) (by simp)
  | .error e, .error e' => decidable_of_iff (e = e') (by simp)
  | .ok _, .error _ => isFalse (by simp)
  | .error _, .ok _ => isFalse (by simp)

/-- Sequence a further `then(...)` call after a chain-building step that may
itself have raised (Python would have propagated the exception before the
call). -/
def chainThen (c : Except PyError Node) (args : ThenArgs) : Except PyError Node :=
  c.bind fun n => nodeThen n args

/-- `get_metadata()` on the result of a chain-building expression. -/
def chainMetadata (c : Except PyError Node) : Except PyError DVal :=
  c.bind Node.get_metadata

/-- A metadata mapping whose tools get their `description` prefixed with
`p` (the `first: `/`second: ` transformers of the repository's own
onion-ordering tests, e.g. `tests/test_chain_building.py`). -/
def prefixToolDescriptions (p : String) (metadata : DVal) : DVal :=
  match metadata with
  | .dict kvs => .dict (kvs.map fun kv =>
      if kv.1 = "tools" then
        (kv.1, match kv.2 with
          | .list tools => .list (tools.map fun tool =>
              match tool with
              | .dict tkvs => .dict (tkvs.map fun e =>
                  if e.1 = "description" then
                    (e.1, match e.2 with
                      | .str s => .str (p ++ s)
                      | v => v)
                  else e)
              | v => v)
          | v => v)
      else kv)
  | v => v

/-- A metadata transformer that fetches the downstream metadata and
prefixes every tool description with `p`. -/
def prefixMetadataTransformer (p : String) : Transformer := fun next_server _ =>
  next_server.get_metadata.map (prefixToolDescriptions p)

/-- Terminal metadata with a single tool whose description is `"base"`. -/
def baseMetadata : DVal :=
  .dict [("tools", .list [.dict [("name", .str "test_tool"), ("description", .str "base")]])]

/-- A terminal server over `baseMetadata`. -/
def baseTerminal : Node :=
  .terminal baseMetadata (fun _ => .ok (.dict [("result", .str "success")]))

/-- The chain of claim C1 as literally written:
`mcp_chain().then(m1).then(m2).then(terminal)` with the prefixing
metadata transformers passed as *single* arguments. -/
def c1SingleArgChain : Except PyError Node :=
  chainThen
    (chainThen
      (nodeThen mcp_chain (.single_transformer (prefixMetadataTransformer "first: ")))
      (.single_transformer (prefixMetadataTransformer "second: ")))
    (.single_server baseTerminal)

/-- What claim C1 asserts `get_metadata()` should equal: `m1` applied with
a downstream whose `get_metadata` is `m2` applied over the terminal. -/
def c1ClaimExpected : Except PyError DVal :=
  prefixMetadataTransformer "first: "
    ⟨prefixMetadataTransformer "second: " baseTerminal.eval (.dict []),
     fun request => defaultRequestTransformer baseTerminal.eval request⟩
    (.dict [])

/-- C1, counterexample.  Claim C1 builds the chain as
`mcp_chain().then(m1).then(m2).then(t)` with each metadata transformer as
a *single* `then` argument.  But `MCPChainBuilder.then` treats a single
non-server argument as a *request* transformer and installs the default
identity *metadata* transformer (`builder.py` lines 27-32), so the
prefixing functions never run on metadata: `get_metadata()` returns the
terminal's description `"base"`, not the claimed `"first: second: base"`
(i.e. not `m1` applied over `m2` applied over the terminal). -/
theorem c1_single_arg_counterexample :
    chainMetadata c1SingleArgChain = .ok baseMetadata
    ∧ c1ClaimExpected
      = .ok (.dict [("tools", .list [.dict [("name", .str "test_tool"),
          ("description", .str "first: second: base")]])])
    ∧ chainMetadata c1SingleArgChain ≠ c1ClaimExpected := by
  refine ⟨rfl, rfl, ?_⟩
  decide

/-- C1, amended: when each transformer pair is attached in the
two-argument form `then(metadata_transformer, request_transformer)`
— the form the repository's own tests use — the first-attached transformer
is outermost.  For every pair of metadata transformers `m1, m2` (with
request transformers `r1, r2`) and every terminal node, the chain
`mcp_chain().then(m1, r1).then(m2, r2).then(terminal)` is
`MW(m1) → MW(m2) → terminal`, its `get_metadata()` is `m1` applied with a
downstream whose `get_metadata` is `m2` applied over the terminal, and with
prefixing transformers over tool description `"base"` the resulting
description is exactly `"first: second: base"`. -/
theorem c1_onion_composition_two_arg :
    (∀ (m1 r1 m2 r2 : Transformer) (meta : DVal) (handler : DVal → Except PyError DVal),
      chainThen (chainThen (nodeThen mcp_chain (.pair m1 r1)) (.pair m2 r2))
          (.single_server (.terminal meta handler))
        = .ok (.middleware (.middleware (.terminal meta handler) m2 r2) m1 r1)
      ∧ (Node.middleware (.middleware (.terminal meta handler) m2 r2) m1 r1).get_metadata
        = m1 (Node.middleware (.terminal meta handler) m2 r2).eval (.dict [])
      ∧ (Node.middleware (.terminal meta handler) m2 r2).eval.get_metadata
        = m2 (Node.terminal meta handler).eval (.dict []))
    ∧ chainMetadata
        (chainThen (chainThen (nodeThen mcp_chain
            (.pair (prefixMetadataTransformer "first: ") defaultRequestTransformer))
            (.pair (prefixMetadataTransformer "second: ") defaultRequestTransformer))
          (.single_server baseTerminal))
      = .ok (.dict [("tools", .list [.dict [("name", .str "test_tool"),
          ("description", .str "first: second: base")]])]) :=
  ⟨fun _ _ _ _ _ _ => ⟨rfl, rfl, rfl⟩, rfl⟩

/-- C2: `MCPChainBuilder.then(x)` with a single argument exposing callable
`get_metadata` and `handle_request` (every `Node` does, whether terminal,
middleware or builder — the source checks only those two attributes,
`builder.py` line 23) returns that very object, not a wrapper around it. -/
theorem c2_terminal_replacement_identity :
    ∀ srv : Node, builderThen (.single_server srv) = .ok srv :=
  fun _ => rfl

/-- C3, counterexample.  The error message raised by
`MiddlewareMCPServer.then` when the downstream has no `then` method starts
with a capital letter: `"Cannot chain on downstream server: it has no
`then` method"` (`middleware.py` line 55), not the claimed lowercase
`"cannot chain on downstream server: it has no `then` method"`. -/
theorem c3_message_counterexample :
    nodeThen (.middleware baseTerminal defaultMetadataTransformer defaultRequestTransformer)
        (.single_server baseTerminal)
      = .error (.valueError "Cannot chain on downstream server: it has no `then` method")
    ∧ "Cannot chain on downstream server: it has no `then` method"
      ≠ "cannot chain on downstream server: it has no `then` method" := by
  exact ⟨rfl, by decide⟩

/-- C3, amended: for every `MiddlewareMCPServer` whose downstream does not
expose a `then` operation (a terminal server object), calling `then(...)`
on it with any arguments raises
`ValueError("Cannot chain on downstream server: it has no `then` method")`
(capital C) and produces no new node (the call returns no chain node,
only the error). -/
theorem c3_cannot_chain_past_terminal :
    ∀ (meta : DVal) (handler : DVal → Except PyError DVal)
      (mt rt : Transformer) (args : ThenArgs),
      nodeThen (.middleware (.terminal meta handler) mt rt) args
        = .error (.valueError "Cannot chain on downstream server: it has no `then` method") :=
  fun _ _ _ _ _ => rfl

/-! ## CLI command adapter (`src/mcp_chain/cli_mcp.py`).

The `subprocess` interactions are passed in as oracles: `helpOracle`
models `_get_help_text` (which already swallows every subprocess error
internally and returns `Optional[str]`), and a `run` oracle models the
single `subprocess.run` call of `_execute_command`. -/

/-- The observable outcome of the `subprocess.run` call in
`_execute_command`: a completed process with captured streams and exit
code, a `subprocess.TimeoutExpired`, or any other spawn failure (with the
exception's text). -/
inductive RunOutcome where
  | completed (stdout stderr : String) (returncode : Int)
  | timedOut
  | failed (e : String)

/-- State of a constructed `CLIMCPServer`. -/
structure CLIMCPServer where
  name : String
  command : Option String
  commands : List String
  descriptions : List (String × String)
  description : Option String

/-- `CLIMCPServer.__init__` (`cli_mcp.py` lines 11-37): `commands` is
authoritative when supplied (with `command` derived as its first element,
`None` for an empty list); otherwise a single `command` becomes
`commands = [command]`; supplying neither raises.
`descriptions or {}` defaults to the empty mapping. -/
def CLIMCPServer.make (name : String) (command : Option String)
    (commands : Option (List String)) (description : Option String)
    (descriptions : Option (List (String × String))) : Except PyError CLIMCPServer :=
  match commands with
  | some cs => .ok ⟨name, cs.head?, cs, descriptions.getD [], description⟩
  | none =>
    match command with
    | some c => .ok ⟨name, some c, [c], descriptions.getD [], description⟩
    | none => .error (.valueError "Either 'command' or 'commands' must be provided")

/-- Python truthiness of an `Optional[str]`: `None` and `""` are falsy. -/
def optStrTruthy : Option String → Bool
  | some s => s != ""
  | none => false

/-- Python `str.startswith(pre)` (a kernel-reducible embedding; the
built-in `String.startsWith` does not evaluate inside the kernel). -/
def pyStartsWith (s pre : String) : Bool := pre.toList.isPrefixOf s.toList

/-- Auxiliary for `pySplitLines`. -/
def pySplitLinesAux : List Char → List Char → List String
  | [], acc => [String.mk acc.reverse]
  | c :: cs, acc =>
    if c = '\n' then String.mk acc.reverse :: pySplitLinesAux cs []
    else pySplitLinesAux cs (c :: acc)

/-- Python `str.split('\n')`: split on every newline, keeping empty
fields (so the result always has one more field than there are
newlines). -/
def pySplitLines (s : String) : List String := pySplitLinesAux s.toList []

/-- `\w` of the Python `re` module (ASCII word characters). -/
def isWordChar (c : Char) : Bool := c.isAlphanum || c = '_'

/-- Characters matched by `[a-zA-Z_-]` in `_extract_description`'s
command-syntax pattern. -/
def isCommandSyntaxChar (c : Char) : Bool := c.isAlpha || c = '_' || c = '-'

/-- `re.match(r'^[a-zA-Z_-]+\s+\[', line)`: an anchored run of word/hyphen
characters, then whitespace, then a literal `[` (the three character
classes are disjoint, so greedy matching is plain `takeWhile`). -/
def matchesCommandSyntax (line : String) : Bool :=
  let cs := line.toList
  let word := cs.takeWhile isCommandSyntaxChar
  let rest := cs.drop word.length
  let sp := rest.takeWhile pyIsSpace
  let rest2 := rest.drop sp.length
  !word.isEmpty && !sp.isEmpty && rest2.head? = some '['

/-- The per-line filter of `_extract_description`'s first pass
(`cli_mcp.py` lines 256-263), applied to an already-stripped line. -/
def goodDescriptionLine (line : String) : Bool :=
  line != ""
  && !(pyStartsWith line "Usage:" || pyStartsWith line "usage:" || pyStartsWith line "USAGE:")
  && !matchesCommandSyntax line
  && (pySplitWS line).length > 1
  && !(pyStartsWith line "-" || pyStartsWith line "Options:" || pyStartsWith line "Arguments:")

/-- The second pass of `_extract_description` (`cli_mcp.py` lines 266-272):
scan for a stripped line starting with `DESCRIPTION:`, `NAME:` or
`SYNOPSIS:` and return the following line (stripped) when it has more than
one word; otherwise keep scanning. -/
def scanHeaderDescription : List String → Option String
  | l :: next :: rest =>
    let line := pyStrip l
    if pyStartsWith line "DESCRIPTION:" || pyStartsWith line "NAME:"
        || pyStartsWith line "SYNOPSIS:" then
      let desc_line := pyStrip next
      if desc_line != "" && (pySplitWS desc_line).length > 1 then some desc_line
      else scanHeaderDescription (next :: rest)
    else scanHeaderDescription (next :: rest)
  | _ => none

/-- `_extract_description(help_text, command)` (`cli_mcp.py` lines 251-275):
first qualifying line among the first 10 (stripped), else a line following
a `DESCRIPTION:`/`NAME:`/`SYNOPSIS:` header, else the generic fallback. -/
def extractDescription (help_text : String) (command : String) : String :=
  let lines := pySplitLines help_text
  match ((lines.take 10).map pyStrip).find? goodDescriptionLine with
  | some line => line
  | none =>
    match scanHeaderDescription lines with
    | some desc => desc
    | none => "Execute " ++ command ++ " command-line tool"

/-- `re.search(r'(-\w,?\s*)?--(\w+)', line).group(2)`: the word following
the first occurrence of `--` that is immediately followed by a word
character (the optional short-flag prefix group cannot consume a `--`, so
group 2 is exactly that word). -/
def findLongOption : List Char → Option String
  | [] => none
  | c1 :: rest =>
    match c1, rest with
    | '-', '-' :: c :: rest2 =>
      if isWordChar c then some (String.mk (c :: rest2.takeWhile isWordChar))
      else findLongOption rest
    | _, _ => findLongOption rest

/-- The JSON-Schema fragment for the always-present `_args` property. -/
def argsPropertySchema : DVal :=
  .dict [("type", .str "array"),
         ("description", .str "Positional arguments for the command"),
         ("items", .dict [("type", .str "string")])]

/-- `_extract_input_schema(help_text, command)` (`cli_mcp.py` lines
277-310): an object schema whose properties start with `_args` and gain
one string property per long option discovered on a help-text line,
excluding `help` and `version`. -/
def extractInputSchema (help_text : String) : DVal :=
  let lines := pySplitLines help_text
  let properties := lines.foldl (fun acc line =>
    let line := pyStrip line
    match findLongOption line.toList with
    | some option_name =>
      if option_name != "help" && option_name != "version" then
        dictSet acc option_name
          (.dict [("type", .str "string"),
                  ("description", .str ("Option --" ++ option_name))])
      else acc
    | none => acc) [("_args", argsPropertySchema)]
  .dict [("type", .str "object"), ("properties", .dict properties),
         ("required", .list [])]

/-- `_create_basic_input_schema()` (`cli_mcp.py` lines 312-324). -/
def createBasicInputSchema : DVal :=
  .dict [("type", .str "object"),
         ("properties", .dict [("_args", argsPropertySchema)]),
         ("required", .list [])]

/-- The description branch of `_get_tool_info` (`cli_mcp.py` lines
202-210): `descriptions[command]` if present; else the legacy single
`description` when truthy and exactly one command is configured; else an
extraction from truthy help text; else the generic fallback. -/
def CLIMCPServer.descriptionFor (s : CLIMCPServer) (help_text : Option String)
    (command : String) : String :=
  match s.descriptions.lookup command with
  | some d => d
  | none =>
    if optStrTruthy s.description && s.commands.length == 1 then
      s.description.getD ""
    else if optStrTruthy help_text then
      extractDescription (help_text.getD "") command
    else
      "Execute " ++ command ++ " command-line tool"

/-- `_get_tool_info(command)` (`cli_mcp.py` lines 195-225), with the help
text supplied by the oracle (the memoization cache is semantically
transparent for a fixed oracle and is not modelled). -/
def CLIMCPServer.getToolInfo (s : CLIMCPServer) (helpOracle : String → Option String)
    (command : String) : DVal :=
  let help_text := helpOracle command
  let description := s.descriptionFor help_text command
  let input_schema :=
    if optStrTruthy help_text then extractInputSchema (help_text.getD "")
    else createBasicInputSchema
  .dict [("name", .str command), ("description", .str description),
         ("inputSchema", input_schema)]

/-- The tools list built by `get_metadata` (`cli_mcp.py` lines 41-51):
one tool descriptor per configured command (`_get_tool_info` never raises
once subprocess behaviour is absorbed into the oracle, and always returns
a non-empty dict, so every command contributes). -/
def CLIMCPServer.toolsList (s : CLIMCPServer) (helpOracle : String → Option String) : DVal :=
  .list (s.commands.map (s.getToolInfo helpOracle))

/-- `CLIMCPServer.get_metadata()` (`cli_mcp.py` lines 39-57). -/
def CLIMCPServer.get_metadata (s : CLIMCPServer)
    (helpOracle : String → Option String) : DVal :=
  .dict [("tools", s.toolsList helpOracle),
         ("resources", .list []),
         ("server_name", .str s.name)]

/-- The flag for a key: single dash for one-character keys, double dash
otherwise (computed inline three times in `_execute_command`). -/
def flagFor (key : String) : String :=
  if key.length = 1 then "-" ++ key else "--" ++ key

/-- The flag-synthesis loop of `_execute_command` (`cli_mcp.py` lines
136-166): starting from `[command]`, iterate the arguments mapping in
order, skipping keys that start with `_`; booleans contribute the flag
alone when `True` and nothing when `False`; lists contribute the flag
before each stringified item; any other value contributes the flag
followed by its stringified value.  Finally the `_args` value (a list, or
a single value promoted) is stringified and appended. -/
def buildCmdParts (command : String) (arguments : List (String × DVal)) : List String :=
  let cmd_parts := arguments.foldl (fun acc kv =>
    let key := kv.1
    if pyStartsWith key "_" then acc
    else
      match kv.2 with
      | .bool b => if b then acc ++ [flagFor key] else acc
      | .list items => acc ++ items.flatMap (fun item => [flagFor key, pyStr item])
      | value => acc ++ [flagFor key, pyStr value]) [command]
  match arguments.lookup "_args" with
  | some (.list positional_args) => cmd_parts ++ positional_args.map pyStr
  | some v => cmd_parts ++ [pyStr v]
  | none => cmd_parts

/-- The output-composition step of `_execute_command` (`cli_mcp.py` lines
178-188): optional `STDOUT:`/`STDERR:` blocks over the stripped streams,
an `Exit code:` block for non-zero exits, joined by `"\n\n"`, or the
fixed no-output text. -/
def composeOutput (stdout stderr : String) (returncode : Int) : String :=
  let output_parts : List String := []
  let output_parts :=
    if pyStrip stdout != "" then output_parts ++ ["STDOUT:\n" ++ pyStrip stdout]
    else output_parts
  let output_parts :=
    if pyStrip stderr != "" then output_parts ++ ["STDERR:\n" ++ pyStrip stderr]
    else output_parts
  let output_parts :=
    if returncode != 0 then output_parts ++ ["Exit code: " ++ toString returncode]
    else output_parts
  if !output_parts.isEmpty then String.intercalate "\n\n" output_parts
  else "Command completed with no output"

/-- `_execute_command(command, arguments)` (`cli_mcp.py` lines 134-193),
returning the composed result text or the message of the raised
exception.  A non-dict `arguments` value makes `arguments.items()` raise
an `AttributeError` inside the caller's `try` block; its message is
abstracted here since only its existence is observable. -/
def executeCommand (run : List String → RunOutcome) (command : String)
    (arguments : DVal) : Except String String :=
  match arguments with
  | .dict kvs =>
    let cmd_parts := buildCmdParts command kvs
    match run cmd_parts with
    | .completed stdout stderr returncode => .ok (composeOutput stdout stderr returncode)
    | .timedOut => .error "Command timed out after 30 seconds"
    | .failed e => .error ("Failed to execute command: " ++ e)
  | v => .error ("'" ++ pyStr v ++ "' object has no attribute 'items'")

/-- A JSON-RPC error response as built by `cli_mcp.py`. -/
def errorResponse (request_id : DVal) (code : Int) (message : String) : DVal :=
  .dict [("jsonrpc", .str "2.0"), ("id", request_id),
         ("error", .dict [("code", .num code), ("message", .str message)])]

/-- The `tools/call` result wrapper of `_handle_tool_call` (`cli_mcp.py`
lines 106-132): one text content item and the `isError` marker. -/
def toolCallResult (request_id : DVal) (text : String) (isError : Bool) : DVal :=
  .dict [("jsonrpc", .str "2.0"), ("id", request_id),
         ("result", .dict [("content", .list [.dict [("type", .str "text"),
                                                     ("text", .str text)]]),
                           ("isError", .bool isError)])]

/-- `_handle_tool_call(request)` (`cli_mcp.py` lines 86-132).  The request
is a mapping; a `params` value that is present but not a mapping makes
`params.get` raise an `AttributeError` outside any `try` block.  A tool
name not among the configured commands yields the `-32602` error; any
exception from `_execute_command` is contained as a successful result
with `isError: true`. -/
def CLIMCPServer.handleToolCall (s : CLIMCPServer) (run : List String → RunOutcome)
    (request : List (String × DVal)) : Except PyError DVal :=
  let request_id := (request.lookup "id").getD .null
  match (request.lookup "params").getD (.dict []) with
  | .dict params =>
    let tool_name := (params.lookup "name").getD (.str "")
    let arguments := (params.lookup "arguments").getD (.dict [])
    match tool_name with
    | .str tn =>
      if tn ∈ s.commands then
        match executeCommand run tn arguments with
        | .ok result => .ok (toolCallResult request_id result false)
        | .error e =>
          .ok (toolCallResult request_id ("Error executing " ++ tn ++ ": " ++ e) true)
      else .ok (errorResponse request_id (-32602) ("Tool not found: " ++ tn))
    | other =>
      -- a non-string name never equals any configured command string
      .ok (errorResponse request_id (-32602) ("Tool not found: " ++ pyStr other))
  | _ => .error (.attributeError "object has no attribute 'get'")

/-- `CLIMCPServer.handle_request(request)` (`cli_mcp.py` lines 59-84):
dispatch on `request.get("method", "")`. -/
def CLIMCPServer.handle_request (s : CLIMCPServer)
    (helpOracle : String → Option String) (run : List String → RunOutcome)
    (request : List (String × DVal)) : Except PyError DVal :=
  let method := (request.lookup "method").getD (.str "")
  let request_id := (request.lookup "id").getD .null
  if method = .str "tools/list" then
    .ok (.dict [("jsonrpc", .str "2.0"), ("id", request_id),
                ("result", .dict [("tools", s.toolsList helpOracle)])])
  else if method = .str "tools/call" then
    s.handleToolCall run request
  else
    .ok (errorResponse request_id (-32601) ("Method not found: " ++ pyStr method))

/-- Spec-side (claim C5): the contribution of a single arguments-mapping
entry to the argument vector — nothing for keys beginning with `_` or for
boolean `False`; the flag alone for boolean `True`; the flag repeated
before each stringified item for a sequence; the flag followed by the
stringified value otherwise. -/
def keyContribution (key : String) (value : DVal) : List String :=
  if pyStartsWith key "_" then []
  else
    match value with
    | .bool false => []
    | .bool true => [flagFor key]
    | .list items => items.flatMap fun item => [flagFor key, pyStr item]
    | v => [flagFor key, pyStr v]

/-- Spec-side (claim C5): the stringified elements of the `_args` value,
a single scalar being promoted to a one-element sequence. -/
def positionalContribution (arguments : List (String × DVal)) : List String :=
  match arguments.lookup "_args" with
  | some (.list xs) => xs.map pyStr
  | some v => [pyStr v]
  | none => []

/-- The flag-synthesis fold of `buildCmdParts` accumulates exactly the
per-entry contributions, in mapping order. -/
theorem buildCmdParts_foldl_eq (l : List (String × DVal)) (init : List String) :
    l.foldl (fun acc kv =>
      let key := kv.1
      if pyStartsWith key "_" then acc
      else
        match kv.2 with
        | .bool b => if b then acc ++ [flagFor key] else acc
        | .list items => acc ++ items.flatMap (fun item => [flagFor key, pyStr item])
        | value => acc ++ [flagFor key, pyStr value]) init
      = init ++ l.flatMap fun kv => keyContribution kv.1 kv.2 := by
  induction l generalizing init with
  | nil => simp
  | cons kv l ih =>
    obtain ⟨key, value⟩ := kv
    rw [List.foldl_cons, ih, List.flatMap_cons, ← List.append_assoc]
    congr 1
    show (if pyStartsWith key "_" then init
      else
        match value with
        | .bool b => if b then init ++ [flagFor key] else init
        | .list items => init ++ items.flatMap (fun item => [flagFor key, pyStr item])
        | value => init ++ [flagFor key, pyStr value])
      = init ++ keyContribution key value
    by_cases hu : pyStartsWith key "_"
    · simp [hu, keyContribution]
    · cases value with
      | bool b => cases b <;> simp [hu, keyContribution]
      | null => simp [hu, keyContribution]
      | num n => simp [hu, keyContribution]
      | str s => simp [hu, keyContribution]
      | list items => simp [hu, keyContribution]
      | dict kvs => simp [hu, keyContribution]

/-- C5: for every command name and arguments mapping, the executed
argument vector is the command name, then the contribution of every entry
in mapping order (nothing for `_`-prefixed keys or boolean `False`, the
single/double-dash flag alone for boolean `True`, the flag repeated before
each stringified item for a sequence, the flag then the stringified value
otherwise), then the stringified `_args` elements (a single scalar being
promoted to a one-element sequence). -/
theorem c5_argument_vector_synthesis (command : String)
    (arguments : List (String × DVal)) :
    buildCmdParts command arguments
      = command :: ((arguments.flatMap fun kv => keyContribution kv.1 kv.2)
          ++ positionalContribution arguments) := by
  unfold buildCmdParts positionalContribution
  rw [buildCmdParts_foldl_eq]
  cases harg : arguments.lookup "_args" with
  | none => simp
  | some v => cases v <;> simp

/-- Spec-side (claim C6): the included blocks, in order — a `STDOUT`
block when the trimmed standard output is non-empty, a `STDERR` block when
the trimmed standard error is non-empty, an `Exit code` block when the
exit code is non-zero. -/
def resultBlocks (stdout stderr : String) (returncode : Int) : List String :=
  (if pyStrip stdout != "" then ["STDOUT:\n" ++ pyStrip stdout] else [])
    ++ (if pyStrip stderr != "" then ["STDERR:\n" ++ pyStrip stderr] else [])
    ++ (if returncode != 0 then ["Exit code: " ++ toString returncode] else [])

/-- Spec-side (claim C6): the applicable blocks joined by one blank line,
or the fixed text when no block applies. -/
def composeOutputSpec (stdout stderr : String) (returncode : Int) : String :=
  if resultBlocks stdout stderr returncode = [] then "Command completed with no output"
  else String.intercalate "\n\n" (resultBlocks stdout stderr returncode)

/-- C6: the textual result composed by `_execute_command` is exactly the
applicable `STDOUT`/`STDERR`/`Exit code` blocks joined by a blank line, in
that order, or `"Command completed with no output"` when none applies. -/
theorem c6_result_composition (stdout stderr : String) (returncode : Int) :
    composeOutput stdout stderr returncode = composeOutputSpec stdout stderr returncode := by
  unfold composeOutput composeOutputSpec resultBlocks
  by_cases h1 : pyStrip stdout != "" <;>
    by_cases h2 : pyStrip stderr != "" <;>
    by_cases h3 : returncode != 0 <;>
    simp [h1, h2, h3]

/-- Spec-side (claim C7): description precedence by first applicable rule —
the `descriptions` entry for the command; else the single `description`
override but only when exactly one command is configured; else the
extraction from help text when help text exists; else the generic
fallback. -/
def descriptionPrecedenceSpec (s : CLIMCPServer) (help_text : Option String)
    (command : String) : String :=
  match s.descriptions.lookup command with
  | some d => d
  | none =>
    match s.description, s.commands.length == 1 with
    | some d, true => d
    | _, _ =>
      match help_text with
      | some h => extractDescription h command
      | none => "Execute " ++ command ++ " command-line tool"

/-- C7: the tool description derived by `_get_tool_info` follows the
claimed precedence.  The two hypotheses exclude the degenerate empty
string: a `description` override of `""` is falsy in Python and therefore
no override at all, and `_get_help_text` never returns an empty string
(it requires more than 10 characters), so an oracle value of `some ""`
cannot arise from the source. -/
theorem c7_description_precedence (s : CLIMCPServer)
    (helpOracle : String → Option String) (command : String)
    (hd : s.description ≠ some "") (hh : helpOracle command ≠ some "") :
    dictGet (s.getToolInfo helpOracle command) "description"
      = some (.str (descriptionPrecedenceSpec s (helpOracle command) command)) := by
  have hfield : dictGet (s.getToolInfo helpOracle command) "description"
      = some (.str (s.descriptionFor (helpOracle command) command)) := by
    simp [CLIMCPServer.getToolInfo, dictGet, List.lookup]
  rw [hfield]
  congr 2
  unfold CLIMCPServer.descriptionFor descriptionPrecedenceSpec
  cases s.descriptions.lookup command with
  | some d => rfl
  | none =>
    cases hdesc : s.description with
    | none =>
      cases hht : helpOracle command with
      | none => simp [optStrTruthy]
      | some h =>
        have : h ≠ "" := fun he => hh (by rw [hht, he])
        simp [optStrTruthy, this]
    | some d =>
      have hdne : d ≠ "" := fun he => hd (by rw [hdesc, he])
      by_cases hlen : s.commands.length == 1
      · simp [optStrTruthy, hdne, hlen]
      · cases hht : helpOracle command with
        | none => simp [optStrTruthy, hlen]
        | some h =>
          have : h ≠ "" := fun he => hh (by rw [hht, he])
          simp [optStrTruthy, hlen, this]

/-- A multi-command adapter with a per-command description entry, a legacy
single override, and help text available (concrete instance for the C7
witness). -/
def c7Server : CLIMCPServer :=
  ⟨"multi", some "alpha", ["alpha", "beta"],
   [("alpha", "mapped description")], some "legacy override"⟩

/-- A help-text oracle answering every command with the same help text. -/
def c7Help : String → Option String :=
  fun _ => some "Run the beta tool quickly\nUsage: beta [options]"

/-- C7 witness: on a concrete two-command adapter, the derived description
for the unmapped command follows the claimed precedence (the legacy
override is ignored because two commands are configured, so help-text
extraction wins). -/
theorem c7_description_precedence_witness :
    c7Server.description ≠ some ""
    ∧ c7Help "beta" ≠ some ""
    ∧ dictGet (c7Server.getToolInfo c7Help "beta") "description"
      = some (.str (descriptionPrecedenceSpec c7Server (c7Help "beta") "beta"))
    ∧ descriptionPrecedenceSpec c7Server (c7Help "beta") "beta"
      = "Run the beta tool quickly" :=
  ⟨by decide, by decide,
   c7_description_precedence c7Server c7Help "beta" (by decide) (by decide),
   by decide⟩

/-- C10: constructing `CLIMCPServer` with `commands=[]` succeeds — the
"Either 'command' or 'commands' must be provided" error is raised exactly
when both `command` and `commands` are absent; with `commands=[]` the
adapter's `command` attribute is `None` and `get_metadata()` returns
`{tools: [], resources: [], server_name: name}`. -/
theorem c10_empty_commands_construction :
    (∀ (name : String) (d : Option String) (ds : Option (List (String × String))),
      CLIMCPServer.make name none none d ds
        = .error (.valueError "Either 'command' or 'commands' must be provided"))
    ∧ (∀ (name : String) (c : Option String) (cs : Option (List String))
        (d : Option String) (ds : Option (List (String × String))),
        c ≠ none ∨ cs ≠ none →
        ∃ s : CLIMCPServer, CLIMCPServer.make name c cs d ds = .ok s)
    ∧ (∀ (name : String) (d : Option String) (ds : Option (List (String × String)))
        (helpOracle : String → Option String),
        CLIMCPServer.make name none (some []) d ds
          = .ok ⟨name, none, [], ds.getD [], d⟩
        ∧ (CLIMCPServer.mk name none [] (ds.getD []) d).get_metadata helpOracle
          = .dict [("tools", .list []), ("resources", .list []),
                   ("server_name", .str name)]) := by
  refine ⟨fun _ _ _ => rfl, fun name c cs d ds h => ?_, fun _ _ _ _ => ⟨rfl, rfl⟩⟩
  cases cs with
  | some cs => exact ⟨_, rfl⟩
  | none =>
    cases c with
    | some c => exact ⟨_, rfl⟩
    | none => simp at h

/-- C10 witness: the empty-commands construction at a concrete name
evaluates to the claimed adapter state and metadata. -/
theorem c10_empty_commands_witness :
    CLIMCPServer.make "empty" none (some []) none none
      = .ok ⟨"empty", none, [], [], none⟩
    ∧ (CLIMCPServer.mk "empty" none [] [] none).get_metadata (fun _ => none)
      = .dict [("tools", .list []), ("resources", .list []),
               ("server_name", .str "empty")] :=
  (c10_empty_commands_construction.2.2 "empty" none none (fun _ => none))

/-- The request's `params` member, when present, is a mapping — the shape
the spec's own JSON-RPC data model prescribes (`params: object
(optional)`); a non-mapping `params` would make `params.get` raise inside
`_handle_tool_call` before any response is produced. -/
def paramsWellFormed (request : List (String × DVal)) : Prop :=
  match request.lookup "params" with
  | none => True
  | some (.dict _) => True
  | some _ => False

/-- `request.get("method", "")`. -/
def requestMethod (request : List (String × DVal)) : DVal :=
  (request.lookup "method").getD (.str "")

/-- `request.get("id")` (`None` when absent). -/
def requestId (request : List (String × DVal)) : DVal :=
  (request.lookup "id").getD .null

/-- `request.get("params", {}).get("name", "")`. -/
def requestToolName (request : List (String × DVal)) : DVal :=
  (dictGet ((request.lookup "params").getD (.dict [])) "name").getD (.str "")

/-- The request's tool name equals one of the configured commands
(`tool_name in self.commands` in Python: a non-string name never equals a
command string). -/
def toolNameKnown (request : List (String × DVal)) (commands : List String) : Prop :=
  ∃ c ∈ commands, requestToolName request = .str c

/-- Key facts about an `errorResponse`: it has an `error` member, carries
the given id, and has no `result` member. -/
theorem errorResponse_members (request_id : DVal) (code : Int) (message : String) :
    hasKey (errorResponse request_id code message) "error" = true
    ∧ dictGet (errorResponse request_id code message) "id" = some request_id
    ∧ hasKey (errorResponse request_id code message) "result" = false :=
  ⟨rfl, rfl, rfl⟩

/-- Key facts about a `toolCallResult`: it has a `result` member, carries
the given id, and has no `error` member. -/
theorem toolCallResult_members (request_id : DVal) (text : String) (isError : Bool) :
    hasKey (toolCallResult request_id text isError) "error" = false
    ∧ dictGet (toolCallResult request_id text isError) "id" = some request_id
    ∧ hasKey (toolCallResult request_id text isError) "result" = true :=
  ⟨rfl, rfl, rfl⟩

/-- The `_handle_tool_call` part of claim C4: given a well-formed
`params`, the call always returns a response; the response has an `error`
member iff the tool name is not among the configured commands, in which
case it is exactly the `-32602` "Tool not found" error; it always carries
the request id and never both `result` and `error`. -/
theorem handleToolCall_spec (s : CLIMCPServer) (run : List String → RunOutcome)
    (request : List (String × DVal)) (hp : paramsWellFormed request) :
    ∃ resp : DVal,
      s.handleToolCall run request = .ok resp
      ∧ (hasKey resp "error" = true ↔ ¬ toolNameKnown request s.commands)
      ∧ dictGet resp "id" = some (requestId request)
      ∧ ¬(hasKey resp "error" = true ∧ hasKey resp "result" = true)
      ∧ (¬ toolNameKnown request s.commands →
          resp = errorResponse (requestId request) (-32602)
            ("Tool not found: " ++ pyStr (requestToolName request))) := by
  have hganz : ∀ (pkvs : List (String × DVal)),
      (request.lookup "params").getD (.dict []) = .dict pkvs →
      ∃ resp : DVal,
        s.handleToolCall run request = .ok resp
        ∧ (hasKey resp "error" = true ↔ ¬ toolNameKnown request s.commands)
        ∧ dictGet resp "id" = some (requestId request)
        ∧ ¬(hasKey resp "error" = true ∧ hasKey resp "result" = true)
        ∧ (¬ toolNameKnown request s.commands →
            resp = errorResponse (requestId request) (-32602)
              ("Tool not found: " ++ pyStr (requestToolName request))) := by
    intro pkvs hpk
    have htn : requestToolName request = (pkvs.lookup "name").getD (.str "") := by
      simp [requestToolName, hpk, dictGet]
    unfold CLIMCPServer.handleToolCall
    rw [hpk]
    dsimp only
    cases htnv : (pkvs.lookup "name").getD (.str "") with
    | str tn =>
      dsimp only
      have hknown' : toolNameKnown request s.commands ↔ tn ∈ s.commands := by
        unfold toolNameKnown
        rw [htn, htnv]
        constructor
        · rintro ⟨c, hc, he⟩; cases he; exact hc
        · intro h; exact ⟨tn, h, rfl⟩
      by_cases hin : tn ∈ s.commands
      · rw [if_pos hin]
        cases hex : executeCommand run tn ((pkvs.lookup "arguments").getD (.dict [])) with
        | ok result =>
          dsimp only
          refine ⟨toolCallResult (requestId request) result false, rfl, ?_, rfl, ?_, ?_⟩
          · rw [(toolCallResult_members _ _ _).1, hknown']
            simp [hin]
          · rw [(toolCallResult_members _ _ _).1]
            simp
          · intro hnk; exact absurd (hknown'.mpr hin) hnk
        | error e =>
          dsimp only
          refine ⟨toolCallResult (requestId request)
              ("Error executing " ++ tn ++ ": " ++ e) true, rfl, ?_, rfl, ?_, ?_⟩
          · rw [(toolCallResult_members _ _ _).1, hknown']
            simp [hin]
          · rw [(toolCallResult_members _ _ _).1]
            simp
          · intro hnk; exact absurd (hknown'.mpr hin) hnk
      · rw [if_neg hin]
        refine ⟨errorResponse (requestId request) (-32602) ("Tool not found: " ++ tn),
          rfl, ?_, rfl, ?_, ?_⟩
        · rw [(errorResponse_members _ _ _).1, hknown']
          simp [hin]
        · rw [(errorResponse_members _ _ _).1, (errorResponse_members _ _ _).2.2]
          simp
        · intro _
          rw [htn, htnv]
          rfl
    | null =>
      dsimp only
      have hnk : ¬ toolNameKnown request s.commands := by
        unfold toolNameKnown
        rw [htn, htnv]
        rintro ⟨c, _, he⟩; cases he
      refine ⟨errorResponse (requestId request) (-32602)
          ("Tool not found: " ++ pyStr .null), rfl, ?_, rfl, ?_, ?_⟩
      · rw [(errorResponse_members _ _ _).1]
        simp [hnk]
      · rw [(errorResponse_members _ _ _).1, (errorResponse_members _ _ _).2.2]
        simp
      · intro _; rw [htn, htnv]
    | bool b =>
      dsimp only
      have hnk : ¬ toolNameKnown request s.commands := by
        unfold toolNameKnown
        rw [htn, htnv]
        rintro ⟨c, _, he⟩; cases he
      refine ⟨errorResponse (requestId request) (-32602)
          ("Tool not found: " ++ pyStr (.bool b)), rfl, ?_, rfl, ?_, ?_⟩
      · rw [(errorResponse_members _ _ _).1]
        simp [hnk]
      · rw [(errorResponse_members _ _ _).1, (errorResponse_members _ _ _).2.2]
        simp
      · intro _; rw [htn, htnv]
    | num n =>
      dsimp only
      have hnk : ¬ toolNameKnown request s.commands := by
        unfold toolNameKnown
        rw [htn, htnv]
        rintro ⟨c, _, he⟩; cases he
      refine ⟨errorResponse (requestId request) (-32602)
          ("Tool not found: " ++ pyStr (.num n)), rfl, ?_, rfl, ?_, ?_⟩
      · rw [(errorResponse_members _ _ _).1]
        simp [hnk]
      · rw [(errorResponse_members _ _ _).1, (errorResponse_members _ _ _).2.2]
        simp
      · intro _; rw [htn, htnv]
    | list xs =>
      dsimp only
      have hnk : ¬ toolNameKnown request s.commands := by
        unfold toolNameKnown
        rw [htn, htnv]
        rintro ⟨c, _, he⟩; cases he
      refine ⟨errorResponse (requestId request) (-32602)
          ("Tool not found: " ++ pyStr (.list xs)), rfl, ?_, rfl, ?_, ?_⟩
      · rw [(errorResponse_members _ _ _).1]
        simp [hnk]
      · rw [(errorResponse_members _ _ _).1, (errorResponse_members _ _ _).2.2]
        simp
      · intro _; rw [htn, htnv]
    | dict kvs =>
      dsimp only
      have hnk : ¬ toolNameKnown request s.commands := by
        unfold toolNameKnown
        rw [htn, htnv]
        rintro ⟨c, _, he⟩; cases he
      refine ⟨errorResponse (requestId request) (-32602)
          ("Tool not found: " ++ pyStr (.dict kvs)), rfl, ?_, rfl, ?_, ?_⟩
      · rw [(errorResponse_members _ _ _).1]
        simp [hnk]
      · rw [(errorResponse_members _ _ _).1, (errorResponse_members _ _ _).2.2]
        simp
      · intro _; rw [htn, htnv]
  cases hps : request.lookup "params" with
  | none => exact hganz [] (by rw [hps]; rfl)
  | some pv =>
    cases pv with
    | dict pkvs => exact hganz pkvs (by rw [hps]; rfl)
    | null => exact absurd hp (by simp [paramsWellFormed, hps])
    | bool b => exact absurd hp (by simp [paramsWellFormed, hps])
    | num n => exact absurd hp (by simp [paramsWellFormed, hps])
    | str st => exact absurd hp (by simp [paramsWellFormed, hps])
    | list xs => exact absurd hp (by simp [paramsWellFormed, hps])

/-- C4: for every request mapping (with `params`, when present, a mapping,
as the JSON-RPC data model prescribes), `CLIMCPServer.handle_request`
returns a response with an `error` member if and only if either the method
is neither `"tools/list"` nor `"tools/call"` (then code `-32601`, message
`"Method not found: {method}"`) or the method is `"tools/call"` with
`params.name` not among the configured commands (then code `-32602`,
message `"Tool not found: {name}"`); in every case the response carries
the request's id and never both `result` and `error`. -/
theorem c4_dispatch_errors (s : CLIMCPServer)
    (helpOracle : String → Option String) (run : List String → RunOutcome)
    (request : List (String × DVal)) (hp : paramsWellFormed request) :
    ∃ resp : DVal,
      s.handle_request helpOracle run request = .ok resp
      ∧ (hasKey resp "error" = true ↔
          ((requestMethod request ≠ .str "tools/list"
            ∧ requestMethod request ≠ .str "tools/call")
           ∨ (requestMethod request = .str "tools/call"
              ∧ ¬ toolNameKnown request s.commands)))
      ∧ dictGet resp "id" = some (requestId request)
      ∧ ¬(hasKey resp "error" = true ∧ hasKey resp "result" = true)
      ∧ ((requestMethod request ≠ .str "tools/list"
          ∧ requestMethod request ≠ .str "tools/call") →
          resp = errorResponse (requestId request) (-32601)
            ("Method not found: " ++ pyStr (requestMethod request)))
      ∧ ((requestMethod request = .str "tools/call"
          ∧ ¬ toolNameKnown request s.commands) →
          resp = errorResponse (requestId request) (-32602)
            ("Tool not found: " ++ pyStr (requestToolName request))) := by
  by_cases h1 : (request.lookup "method").getD (.str "") = .str "tools/list"
  · have hmeq : requestMethod request = .str "tools/list" := h1
    refine ⟨.dict [("jsonrpc", .str "2.0"), ("id", (request.lookup "id").getD .null),
        ("result", .dict [("tools", s.toolsList helpOracle)])], ?_, ?_, rfl, ?_, ?_, ?_⟩
    · unfold CLIMCPServer.handle_request
      dsimp only
      rw [if_pos h1]
    · simp [hasKey, dictGet, List.lookup, hmeq]
    · simp [hasKey, dictGet, List.lookup]
    · rintro ⟨hc, _⟩; exact absurd hmeq hc
    · rintro ⟨hc, _⟩
      rw [hmeq] at hc
      simp at hc
  · by_cases h2 : (request.lookup "method").getD (.str "") = .str "tools/call"
    · have hmeq : requestMethod request = .str "tools/call" := h2
      obtain ⟨resp, hrun, hiff, hid, hexcl, herr⟩ := handleToolCall_spec s run request hp
      refine ⟨resp, ?_, ?_, hid, hexcl, ?_, ?_⟩
      · unfold CLIMCPServer.handle_request
        dsimp only
        rw [if_neg h1, if_pos h2]
        exact hrun
      · rw [hiff, hmeq]
        constructor
        · intro hnk; exact Or.inr ⟨rfl, hnk⟩
        · rintro (⟨_, hc⟩ | ⟨_, hnk⟩)
          · exact absurd rfl hc
          · exact hnk
      · rintro ⟨_, hc⟩; exact absurd hmeq hc
      · rintro ⟨_, hnk⟩; exact herr hnk
    · have hne1 : requestMethod request ≠ .str "tools/list" := h1
      have hne2 : requestMethod request ≠ .str "tools/call" := h2
      refine ⟨errorResponse (requestId request) (-32601)
          ("Method not found: " ++ pyStr (requestMethod request)), ?_, ?_,
          (errorResponse_members _ _ _).2.1, ?_, ?_, ?_⟩
      · unfold CLIMCPServer.handle_request
        dsimp only
        rw [if_neg h1, if_neg h2]
        rfl
      · exact ⟨fun _ => Or.inl ⟨hne1, hne2⟩, fun _ => (errorResponse_members _ _ _).1⟩
      · simp [(errorResponse_members (requestId request) (-32601)
          ("Method not found: " ++ pyStr (requestMethod request))).2.2]
      · intro _; rfl
      · rintro ⟨hc, _⟩; exact absurd hc hne2

/-- A concrete single-command adapter, oracles and `tools/call` request
with an unknown tool name, for the C4 witness. -/
def c4Server : CLIMCPServer := ⟨"srv", some "echo", ["echo"], [], none⟩

/-- A concrete request asking for a tool that is not configured. -/
def c4Request : List (String × DVal) :=
  [("jsonrpc", .str "2.0"), ("method", .str "tools/call"), ("id", .num 7),
   ("params", .dict [("name", .str "missing"), ("arguments", .dict [])])]

/-- C4 witness: on the concrete unknown-tool request the dispatch theorem
applies and its response is the `-32602` "Tool not found" error carrying
id 7. -/
theorem c4_dispatch_errors_witness :
    paramsWellFormed c4Request
    ∧ (∃ resp : DVal,
        c4Server.handle_request (fun _ => none) (fun _ => .completed "" "" 0) c4Request
          = .ok resp
        ∧ (hasKey resp "error" = true ↔
            ((requestMethod c4Request ≠ .str "tools/list"
              ∧ requestMethod c4Request ≠ .str "tools/call")
             ∨ (requestMethod c4Request = .str "tools/call"
                ∧ ¬ toolNameKnown c4Request c4Server.commands)))
        ∧ dictGet resp "id" = some (requestId c4Request)
        ∧ ¬(hasKey resp "error" = true ∧ hasKey resp "result" = true)
        ∧ ((requestMethod c4Request ≠ .str "tools/list"
            ∧ requestMethod c4Request ≠ .str "tools/call") →
            resp = errorResponse (requestId c4Request) (-32601)
              ("Method not found: " ++ pyStr (requestMethod c4Request)))
        ∧ ((requestMethod c4Request = .str "tools/call"
            ∧ ¬ toolNameKnown c4Request c4Server.commands) →
            resp = errorResponse (requestId c4Request) (-32602)
              ("Tool not found: " ++ pyStr (requestToolName c4Request)))) :=
  ⟨by trivial,
   c4_dispatch_errors c4Server (fun _ => none) (fun _ => .completed "" "" 0)
     c4Request (by trivial)⟩

/-! ## Protocol Engine Bridge registration (`src/mcp_chain/fastmcp.py`).

`_register_tools_and_resources` runs the same skip-or-register loop twice,
once over `tools` keyed on `"name"` and once over `resources` keyed on
`"uri"`; it is embedded once, parameterized by the key field. -/

/-- The registration loop of `_register_tools_and_resources`
(`fastmcp.py` lines 57-91) over a list of metadata entries, with `seen`
the set of already-registered key values: a non-mapping entry is skipped
(error logged), an entry whose key field is missing or falsy
(`if not tool_name`) is skipped (error logged), an entry whose key value
was already seen is skipped (warning logged), and every other entry is
registered and its key value marked seen.  Nothing aborts: the function
returns the registered entries in order.  (Python keeps `seen` in a
`set`, which requires hashable key values; the spec's data model makes
tool names and resource URIs strings, on which this embedding's value
equality coincides with Python's.) -/
def registerEntries (key : String) : List DVal → List DVal → List DVal
  | [], _ => []
  | entry :: rest, seen =>
    match entry with
    | .dict kvs =>
      let keyVal := (kvs.lookup key).getD .null
      if !keyVal.truthy then registerEntries key rest seen
      else if keyVal ∈ seen then registerEntries key rest seen
      else entry :: registerEntries key rest (keyVal :: seen)
    | _ => registerEntries key rest seen

/-- The tools actually registered by bridge construction from a `tools`
metadata sequence. -/
def registeredToolEntries (tools : List DVal) : List DVal :=
  registerEntries "name" tools []

/-- The resources actually registered by bridge construction from a
`resources` metadata sequence. -/
def registeredResourceEntries (resources : List DVal) : List DVal :=
  registerEntries "uri" resources []

/-- The key value of a metadata entry (`entry.get(key)`, `None`-as-falsy
when the entry is not a mapping or lacks the field). -/
def entryKey (key : String) (entry : DVal) : DVal :=
  match entry with
  | .dict kvs => (kvs.lookup key).getD .null
  | _ => .null

/-- Spec-side (claim C8): the entries eligible for registration — mappings
whose key field holds a non-empty (truthy) value. -/
def validEntries (key : String) (entries : List DVal) : List DVal :=
  entries.filter fun entry =>
    match entry with
    | .dict kvs => ((kvs.lookup key).getD .null).truthy
    | _ => false

/-- Spec-side (claim C8): keep exactly the first entry bearing each
distinct key value. -/
def firstOccurrencesBy (f : DVal → DVal) : List DVal → List DVal
  | [] => []
  | x :: xs => x :: firstOccurrencesBy f (xs.filter fun y => f y ≠ f x)
termination_by l => l.length
decreasing_by
  simp only [List.length_cons]
  exact Nat.lt_succ_of_le (List.length_filter_le _ _)

/-- The registration loop computes the first occurrence of each distinct
key value among the valid entries not yet seen. -/
theorem registerEntries_eq_firstOcc (key : String) (entries : List DVal) :
    ∀ seen : List DVal,
      registerEntries key entries seen
        = firstOccurrencesBy (entryKey key)
            ((validEntries key entries).filter fun e => entryKey key e ∉ seen) := by
  induction entries with
  | nil => intro seen; simp [registerEntries, validEntries, firstOccurrencesBy]
  | cons e rest ih =>
    intro seen
    cases e with
    | dict kvs =>
      simp only [registerEntries]
      by_cases ht : ((kvs.lookup key).getD .null).truthy
      · simp only [ht, Bool.not_true, Bool.false_eq_true, if_false]
        by_cases hs : ((kvs.lookup key).getD .null) ∈ seen
        · rw [if_pos hs, ih seen]
          congr 1
          simp [validEntries, List.filter_cons, ht, entryKey, hs]
        · rw [if_neg hs, ih (((kvs.lookup key).getD .null) :: seen)]
          have hkeep : (validEntries key (DVal.dict kvs :: rest)).filter
                (fun e => entryKey key e ∉ seen)
              = DVal.dict kvs ::
                ((validEntries key rest).filter fun e => entryKey key e ∉ seen) := by
            simp [validEntries, List.filter_cons, ht, entryKey, hs]
          rw [hkeep, firstOccurrencesBy]
          congr 1
          rw [List.filter_filter]
          congr 1
          apply List.filter_congr
          intro x _
          by_cases h1 : entryKey key x ∈ seen <;>
            by_cases h2 : entryKey key x = entryKey key (.dict kvs) <;>
            simp [h1, h2, entryKey, List.mem_cons]
      · simp only [ht, Bool.not_false, if_true]
        rw [ih seen]
        congr 1
        simp only [validEntries, List.filter_cons, ht]
        simp
    | null =>
      have h0 : registerEntries key (DVal.null :: rest) seen
          = registerEntries key rest seen := rfl
      rw [h0, ih seen]
      rfl
    | bool b =>
      have h0 : registerEntries key (DVal.bool b :: rest) seen
          = registerEntries key rest seen := rfl
      rw [h0, ih seen]
      rfl
    | num n =>
      have h0 : registerEntries key (DVal.num n :: rest) seen
          = registerEntries key rest seen := rfl
      rw [h0, ih seen]
      rfl
    | str s =>
      have h0 : registerEntries key (DVal.str s :: rest) seen
          = registerEntries key rest seen := rfl
      rw [h0, ih seen]
      rfl
    | list xs =>
      have h0 : registerEntries key (DVal.list xs :: rest) seen
          = registerEntries key rest seen := rfl
      rw [h0, ih seen]
      rfl

/-- Every entry kept by `firstOccurrencesBy` comes from the input list
(stated with a length fuel to drive the well-founded recursion). -/
theorem firstOccurrencesBy_subset_sized (f : DVal → DVal) :
    ∀ (n : Nat) (l : List DVal), l.length ≤ n →
      ∀ y ∈ firstOccurrencesBy f l, y ∈ l := by
  intro n
  induction n with
  | zero =>
    intro l hl y hy
    have : l = [] := List.length_eq_zero.mp (Nat.le_zero.mp hl)
    subst this
    simp [firstOccurrencesBy] at hy
  | succ n ih =>
    intro l hl y hy
    cases l with
    | nil => simp [firstOccurrencesBy] at hy
    | cons x xs =>
      rw [firstOccurrencesBy] at hy
      rcases List.mem_cons.mp hy with rfl | hy'
      · exact List.mem_cons_self _ _
      · have hlen : (xs.filter fun y => f y ≠ f x).length ≤ n := by
          have := List.length_filter_le (fun y => decide (f y ≠ f x)) xs
          simp only [List.length_cons] at hl
          omega
        have := ih _ hlen y hy'
        exact List.mem_cons_of_mem _ (List.mem_of_mem_filter this)

/-- The key values of the entries kept by `firstOccurrencesBy` are
pairwise distinct. -/
theorem firstOccurrencesBy_map_nodup_sized (f : DVal → DVal) :
    ∀ (n : Nat) (l : List DVal), l.length ≤ n →
      ((firstOccurrencesBy f l).map f).Nodup := by
  intro n
  induction n with
  | zero =>
    intro l hl
    have : l = [] := List.length_eq_zero.mp (Nat.le_zero.mp hl)
    subst this
    simp [firstOccurrencesBy]
  | succ n ih =>
    intro l hl
    cases l with
    | nil => simp [firstOccurrencesBy]
    | cons x xs =>
      rw [firstOccurrencesBy]
      have hlen : (xs.filter fun y => f y ≠ f x).length ≤ n := by
        have := List.length_filter_le (fun y => decide (f y ≠ f x)) xs
        simp only [List.length_cons] at hl
        omega
      rw [List.map_cons, List.nodup_cons]
      refine ⟨?_, ih _ hlen⟩
      intro hmem
      obtain ⟨y, hy, hfy⟩ := List.mem_map.mp hmem
      have hyin := firstOccurrencesBy_subset_sized f n _ hlen y hy
      have := List.of_mem_filter hyin
      simp at this
      exact this hfy

/-- C8: bridge registration registers a tool exactly for the first
occurrence of each distinct non-empty (truthy) tool name whose entry is a
mapping; entries that are not mappings, lack a non-empty name, or repeat
an already-seen name are skipped and nothing aborts (the registration
function is total); consequently the registered tool names are pairwise
distinct — and resources behave identically keyed on `uri`. -/
theorem c8_registration_first_occurrences (tools resources : List DVal) :
    registeredToolEntries tools
      = firstOccurrencesBy (entryKey "name") (validEntries "name" tools)
    ∧ ((registeredToolEntries tools).map (entryKey "name")).Nodup
    ∧ registeredResourceEntries resources
      = firstOccurrencesBy (entryKey "uri") (validEntries "uri" resources)
    ∧ ((registeredResourceEntries resources).map (entryKey "uri")).Nodup := by
  have htool : registeredToolEntries tools
      = firstOccurrencesBy (entryKey "name") (validEntries "name" tools) := by
    rw [registeredToolEntries, registerEntries_eq_firstOcc]
    congr 1
    simp
  have hres : registeredResourceEntries resources
      = firstOccurrencesBy (entryKey "uri") (validEntries "uri" resources) := by
    rw [registeredResourceEntries, registerEntries_eq_firstOcc]
    congr 1
    simp
  refine ⟨htool, ?_, hres, ?_⟩
  · rw [htool]
    exact firstOccurrencesBy_map_nodup_sized _ _ _ (Nat.le_refl _)
  · rw [hres]
    exact firstOccurrencesBy_map_nodup_sized _ _ _ (Nat.le_refl _)

/-! ## Deprecated JSON-facing front adapter (`src/mcp_chain/front.py`).

`json.loads` is passed in as an oracle (`Option`-valued: `none` models a
`json.JSONDecodeError`); `json.dumps` is either kept abstract or supplied
as the concrete serializer `jsonDumps` below. -/

/-- JSON string escaping as `json.dumps` performs it for the quote,
backslash and common control characters (other characters print
verbatim). -/
def jsonEscapeChar (c : Char) : String :=
  if c = '"' then "\\\""
  else if c = '\\' then "\\\\"
  else if c = '\n' then "\\n"
  else if c = '\t' then "\\t"
  else if c = '\r' then "\\r"
  else String.mk [c]

/-- Escape a whole string for JSON output. -/
def jsonEscape (s : String) : String := String.join (s.toList.map jsonEscapeChar)

mutual
/-- `json.dumps` with its default separators (`", "` and `": "`). -/
def jsonDumps : DVal → String
  | .null => "null"
  | .bool b => if b then "true" else "false"
  | .num n => toString n
  | .str s => "\"" ++ jsonEscape s ++ "\""
  | .list xs => "[" ++ jsonDumpsList xs ++ "]"
  | .dict kvs => "\x7b" ++ jsonDumpsDict kvs ++ "\x7d"

/-- Comma-separated serialization of array elements. -/
def jsonDumpsList : List DVal → String
  | [] => ""
  | [x] => jsonDumps x
  | x :: y :: xs => jsonDumps x ++ ", " ++ jsonDumpsList (y :: xs)

/-- Comma-separated serialization of object members. -/
def jsonDumpsDict : List (String × DVal) → String
  | [] => ""
  | [(k, v)] => "\"" ++ jsonEscape k ++ "\": " ++ jsonDumps v
  | (k, v) :: e :: kvs =>
    "\"" ++ jsonEscape k ++ "\": " ++ jsonDumps v ++ ", " ++ jsonDumpsDict (e :: kvs)
end

/-- The JSON-RPC parse-error response dict built by
`FrontMCPServer.handle_request` (`front.py` lines 28-32).  Note that the
`id` member is *present* with value `None` (serialized as JSON `null`),
not absent. -/
def parseErrorResponse : DVal :=
  .dict [("jsonrpc", .str "2.0"), ("id", .null),
         ("error", .dict [("code", .num (-32700)), ("message", .str "Parse error")])]

/-- `FrontMCPServer.handle_request(request)` (`front.py` lines 21-39):
parse the incoming string; on `json.JSONDecodeError` return the serialized
parse-error response without touching the wrapped chain; otherwise forward
the parsed dict downstream and serialize the response. -/
def frontHandleRequest (loads : String → Option DVal) (dumps : DVal → String)
    (downstream : DVal → Except PyError DVal) (request : String) :
    Except PyError String :=
  match loads request with
  | none => .ok (dumps parseErrorResponse)
  | some request_dict => (downstream request_dict).map dumps

/-- C9, counterexample.  On a parse failure the serialized response
produced by the front adapter is exactly
`{"jsonrpc": "2.0", "id": null, "error": {"code": -32700, "message":
"Parse error"}}`: its `id` member is *present* with value `null`, whereas
the claim says `id` is absent. -/
theorem c9_id_present_counterexample :
    frontHandleRequest (fun _ => none) jsonDumps (fun _ => .ok .null) "not json"
      = .ok "\x7b\"jsonrpc\": \"2.0\", \"id\": null, \"error\": \x7b\"code\": -32700, \"message\": \"Parse error\"\x7d\x7d"
    ∧ dictGet parseErrorResponse "id" = some .null
    ∧ dictGet parseErrorResponse "id" ≠ none := by
  refine ⟨?_, rfl, by simp [parseErrorResponse, dictGet, List.lookup]⟩
  decide

/-- C9, amended: for every input string on which the JSON parse fails, the
deprecated front adapter's `handle_request` returns the serialization of
the fixed parse-error response — JSON-RPC error code `-32700`, message
`"Parse error"`, and `id` *present with value null* — and the wrapped
chain's `handle_request` is never invoked: the result is the same for
every downstream, including one that would raise. -/
theorem c9_parse_error_atomicity (loads : String → Option DVal)
    (dumps : DVal → String) (request : String) (hfail : loads request = none) :
    (∀ downstream : DVal → Except PyError DVal,
      frontHandleRequest loads dumps downstream request
        = .ok (dumps parseErrorResponse))
    ∧ dictGet (dictGet parseErrorResponse "error" |>.getD .null) "code"
      = some (.num (-32700))
    ∧ dictGet (dictGet parseErrorResponse "error" |>.getD .null) "message"
      = some (.str "Parse error")
    ∧ dictGet parseErrorResponse "id" = some .null := by
  refine ⟨fun downstream => ?_, rfl, rfl, rfl⟩
  unfold frontHandleRequest
  rw [hfail]

/-- C9 witness: the amended atomicity theorem applied at a concrete
failing parse with two different downstreams, one of which raises. -/
theorem c9_parse_error_atomicity_witness :
    ((fun _ : String => (none : Option DVal)) "x" = none)
    ∧ (∀ downstream : DVal → Except PyError DVal,
        frontHandleRequest (fun _ => none) jsonDumps downstream "x"
          = .ok (jsonDumps parseErrorResponse))
    ∧ dictGet parseErrorResponse "id" = some .null :=
  ⟨rfl,
   (c9_parse_error_atomicity (fun _ => none) jsonDumps "x" rfl).1,
   (c9_parse_error_atomicity (fun _ => none) jsonDumps "x" rfl).2.2.2⟩
